/-
Verification of the katana standard-engine link-extraction core.

The definitions below are a shallow embedding of the Go sources:
  * src/unnamed/part_000        (pkg/standard parser registry and parsers)
  * src/pkg/standard/request.go (makeRequest, only its depth bookkeeping)
Inline `emit(request)` callbacks are embedded as the list of emitted
requests, in emission order.  Go package helpers that are not part of the
provided sources (pkg/utils, pkg/navigation) are either kept abstract as
fields of `Env` or modelled from the spec and documented as such.
-/
import Mathlib

set_option autoImplicit false

/-! ## String helpers (executable models of the Go stdlib calls used) -/

/-- Model of `strings.HasPrefix` on the character list of a string. -/
def strStartsWith (s t : String) : Bool :=
  t.data.isPrefixOf s.data

/-- Model of `strings.HasSuffix` on the character list of a string. -/
def strEndsWith (s t : String) : Bool :=
  t.data.isSuffixOf s.data

/-- Does `pat` occur as a contiguous sublist of `s`? -/
def subListOccurs (pat : List Char) : List Char → Bool
  | [] => pat.isEmpty
  | c :: rest => pat.isPrefixOf (c :: rest) || subListOccurs pat rest

/-- Model of `strings.Contains`. -/
def strContains (s t : String) : Bool :=
  subListOccurs t.data s.data

/-- ASCII upper-casing of one character (the methods handled here are ASCII). -/
def asciiUpperChar (c : Char) : Char :=
  if 'a' ≤ c ∧ c ≤ 'z' then Char.ofNat (c.toNat - 32) else c

/-- Model of `strings.ToUpper`. -/
def strToUpper (s : String) : String :=
  ⟨s.data.map asciiUpperChar⟩

/-- Concatenate a list of strings with a separator, model of `strings.Join`. -/
def intercalateStr (sep : String) : List String → String
  | [] => ""
  | [x] => x
  | x :: y :: xs => x ++ sep ++ intercalateStr sep (y :: xs)

/-- Concatenate a list of strings. -/
def concatStr (l : List String) : String :=
  l.foldl (fun acc s => acc ++ s) ""

/-! ## Percent-encoding (model of Go `net/url.QueryEscape`) -/

/-- Upper-case hexadecimal digit for a value below 16. -/
def hexDigitChar (n : Nat) : Char :=
  if n < 10 then Char.ofNat (48 + n) else Char.ofNat (55 + n)

/-- UTF-8 encoding of one Unicode code point, as a list of byte values. -/
def utf8EncodeCharNat (c : Nat) : List Nat :=
  if c < 128 then [c]
  else if c < 2048 then [192 + c / 64, 128 + c % 64]
  else if c < 65536 then [224 + c / 4096, 128 + (c / 64) % 64, 128 + c % 64]
  else [240 + c / 262144, 128 + (c / 4096) % 64, 128 + (c / 64) % 64, 128 + c % 64]

/-- The UTF-8 bytes of a string, as natural numbers. -/
def utf8Bytes (s : String) : List Nat :=
  (s.data.map (fun c => utf8EncodeCharNat c.toNat)).flatten

/-- Escaping of one byte under Go `url.QueryEscape`: alphanumerics and
`-._~` kept, space becomes `+`, anything else `%XX` with upper-case hex. -/
def queryEscapeByte (b : Nat) : String :=
  if (65 ≤ b ∧ b ≤ 90) ∨ (97 ≤ b ∧ b ≤ 122) ∨ (48 ≤ b ∧ b ≤ 57) ∨
      b = 45 ∨ b = 95 ∨ b = 46 ∨ b = 126 then
    ⟨[Char.ofNat b]⟩
  else if b = 32 then "+"
  else ⟨['%', hexDigitChar (b / 16), hexDigitChar (b % 16)]⟩

/-- Model of Go `url.QueryEscape`. -/
def queryEscape (s : String) : String :=
  concatStr ((utf8Bytes s).map queryEscapeByte)

/-! ## Model of Go `url.Values` (`make(url.Values)`, `Set`, `Encode`) -/

/-- Model of `url.Values.Set k v`: replace any previous entry for `k` with the single
value `v` (a Go map update). -/
def valuesSet (vs : List (String × String)) (k v : String) : List (String × String) :=
  vs.filter (fun p => p.1 ≠ k) ++ [(k, v)]

/-- Insertion into a key-sorted association list. -/
def insertSorted (p : String × String) : List (String × String) → List (String × String)
  | [] => [p]
  | q :: rest => if p.1 < q.1 then p :: q :: rest else q :: insertSorted p rest

/-- Sort an association list by key (Go `url.Values.Encode` sorts its keys). -/
def sortByKey (l : List (String × String)) : List (String × String) :=
  l.foldr insertSorted []

/-- Model of `url.Values.Encode`: keys sorted, each pair rendered as
`escape(k)=escape(v)`, pairs joined with `&`; the empty map encodes to "". -/
def valuesEncode (vs : List (String × String)) : String :=
  intercalateStr "&" ((sortByKey vs).map (fun p => queryEscape p.1 ++ "=" ++ queryEscape p.2))

/-! ## Model of Go `mime/multipart.Writer` as used by the form parser -/

/-- Escaping applied by `multipart` to a field name inside the
`Content-Disposition` header: backslash and double quote are backslashed. -/
def quoteEscape (s : String) : String :=
  concatStr (s.data.map (fun c =>
    if c = '\\' then "\\\\" else if c = '"' then "\\\"" else ⟨[c]⟩))

/-- State of a `multipart.Writer` writing into a `strings.Builder`: the fixed
boundary, the output accumulated so far, and whether a part was written. -/
structure MultipartWriter where
  boundary : String
  out : String
  hasPart : Bool
deriving DecidableEq

/-- Model of `multipart.Writer.WriteField k v`: the first part is introduced by
`--boundary CRLF`, later parts by `CRLF --boundary CRLF`; then the
`Content-Disposition` header, a blank line, and the field value. -/
def MultipartWriter.writeField (w : MultipartWriter) (k v : String) : MultipartWriter :=
  let sep := if w.hasPart then "\r\n--" ++ w.boundary ++ "\r\n" else "--" ++ w.boundary ++ "\r\n"
  { w with
    out := w.out ++ sep ++ "Content-Disposition: form-data; name=\"" ++ quoteEscape k ++
      "\"\r\n\r\n" ++ v
    hasPart := true }

/-- Model of `multipart.Writer.Close`: always appends `CRLF --boundary-- CRLF`. -/
def MultipartWriter.close (w : MultipartWriter) : String :=
  w.out ++ "\r\n--" ++ w.boundary ++ "--\r\n"

/-- The multipart serialization of a field list under a given boundary:
every field written with `WriteField` in order, then the writer closed. -/
def mpBody (boundary : String) (fields : List (String × String)) : String :=
  (fields.foldl (fun w p => w.writeField p.1 p.2) (MultipartWriter.mk boundary "" false)).close

/-- The characters that force `multipart.Writer.FormDataContentType` to quote
the boundary parameter (Go's randomly generated boundaries, being hex digits,
never contain any of them). -/
def mimeSpecialChars : List Char :=
  ['(', ')', '<', '>', '@', ',', ';', ':', '\\', '"', '/', '[', ']', '?', '=', ' ']

/-- Does the string contain one of the given characters? -/
def containsAnyOf (s : String) (cs : List Char) : Bool :=
  s.data.any (fun c => cs.contains c)

/-- Model of `multipart.Writer.FormDataContentType`. -/
def FormDataContentType (boundary : String) : String :=
  let b := if containsAnyOf boundary mimeSpecialChars then "\"" ++ boundary ++ "\"" else boundary
  "multipart/form-data; boundary=" ++ b

/-! ## Navigation data model (pkg/navigation values as used by the parsers) -/

/-- Model of `navigation.NavigationRequest`: the candidate request a parser emits. -/
structure NavigationRequest where
  Method : String
  URL : String
  Body : String
  Headers : List (String × String)
  Depth : Nat
  Source : String
deriving DecidableEq

/-- The parsing-relevant crawl flags (`types.Options`). -/
structure TypesOptions where
  ScrapeJSResponses : Bool
deriving DecidableEq

/-- Model of `types.CrawlerOptions`: wraps the flag set, mirroring
`resp.Options.Options.…` in the source. -/
structure CrawlerOptions where
  Options : TypesOptions
deriving DecidableEq

/-- One HTML element as the parsers consume it: its attribute list, its
`<input>` descendants (used only by the form parser) and its text content
(used only by the script parser). -/
inductive Element where
  | mk (attrs : List (String × String)) (inputs : List Element) (text : String)

/-- Attribute list of an element. -/
def Element.attrs : Element → List (String × String)
  | .mk a _ _ => a

/-- Input descendants of an element. -/
def Element.inputs : Element → List Element
  | .mk _ i _ => i

/-- Text content of an element. -/
def Element.text : Element → String
  | .mk _ _ t => t

/-- Model of `goquery` `Selection.Attr`: first value for the name, with presence flag
rendered as `Option`. -/
def Element.attr (e : Element) (k : String) : Option String :=
  (e.attrs.find? (fun p => p.1 = k)).map (fun p => p.2)

/-- Attribute-presence test, used to embed CSS selectors like `embed[src]`. -/
def Element.hasAttr (e : Element) (k : String) : Bool :=
  (e.attr k).isSome

/-- The parsed document, one element list per tag name queried by the
parsers; `Find "tag[attr]"` is embedded as filtering the tag's list by
attribute presence. -/
structure Document where
  aTags : List Element
  embedTags : List Element
  frameTags : List Element
  iframeTags : List Element
  inputTags : List Element
  isindexTags : List Element
  scriptTags : List Element
  buttonTags : List Element
  formTags : List Element
  metaTags : List Element

/-- Model of `navigation.NavigationResponse`, restricted to the fields the parsers
read: depth, options, raw body, the response header map, the path of the
response's request URL, the parsed document, and the URL resolver
(`resp.AbsoluteURL`, returning "" on failure). -/
structure NavigationResponse where
  Depth : Nat
  Options : CrawlerOptions
  Body : String
  RespHeader : List (String × String)
  RespRequestURLPath : String
  Reader : Document
  AbsoluteURL : String → String

/-- Model of `http.Header.Get`: first value stored under the (canonical) key, or ""
when the header is absent. -/
def headerGet (headers : List (String × String)) (key : String) : String :=
  match headers.find? (fun p => p.1 = key) with
  | some p => p.2
  | none => ""

/-! ## Repository helpers missing from src/ -/

/-- Modelled from the spec: `utils.FormInput` is one input-like element
extracted from a form — name, type, current value and hints (§3
"FormInput"); the whole of pkg/utils is missing from src/. -/
structure FormInput where
  Name : String
  Typ : String
  Value : String
deriving DecidableEq

/-- Modelled from the spec: `utils.ConvertGoquerySelectionToFormInput` reads
an input element's name, type and value attributes into a `FormInput`
(pkg/utils is missing from src/). -/
def ConvertGoquerySelectionToFormInput (e : Element) : FormInput :=
  { Name := (e.attr "name").getD ""
    Typ := (e.attr "type").getD ""
    Value := (e.attr "value").getD "" }

/-- Modelled from the spec: `utils.DefaultFormFillData` is the static table
of field-name hints to plausible values driving the fill heuristic (§4.2
step 5); its entries are not fixed by src/ and no theorem below depends on
them. -/
def DefaultFormFillData : List (String × String) :=
  [("email", "sample@email.com"), ("username", "sampleuser")]

/-- The pkg/utils / pkg/navigation functions called by the parsers whose
code is missing from src/, together with the random multipart boundary,
kept abstract so that every theorem holds for any implementation:
`ParseLinkTag` (URL list of a `Link` header), `ParseRefreshTag` (URL of a
refresh directive, "" when none), `ExtractRelativeEndpoints` (regex matches
over script text), `FormInputFillSuggestions` (the fill heuristic producing
the data map), and `boundary` (the boundary `multipart.NewWriter` draws at
random). -/
structure Env where
  ParseLinkTag : String → List String
  ParseRefreshTag : String → String
  ExtractRelativeEndpoints : String → List String
  FormInputFillSuggestions : List FormInput → List (String × String) → List (String × String)
  boundary : String

/-- Modelled from the spec: `navigation.NewNavigationRequestURL` (pkg/
navigation, missing from src/) builds the navigation request for a raw
reference: the URL is resolved against the response, the given source tag is
attached, the method defaults to GET, and the depth is the parent response's
depth + 1 (§3 "depth: parent response's depth + 1"). -/
def NewNavigationRequestURL (path source : String) (resp : NavigationResponse) : NavigationRequest :=
  { Method := "GET"
    URL := resp.AbsoluteURL path
    Body := ""
    Headers := []
    Depth := resp.Depth + 1
    Source := source }

/-! ## Header based parsers (src/unnamed/part_000 lines 52-93) -/

/-- The common parser shape: the emitted requests, in emission order. -/
def responseParserFunc : Type :=
  Env → NavigationResponse → List NavigationRequest

/-- Model of `headerContentLocationParser`. -/
def headerContentLocationParser : responseParserFunc := fun _ resp =>
  let header := headerGet resp.RespHeader "Content-Location"
  if header = "" then []
  else [NewNavigationRequestURL header "content-location" resp]

/-- Model of `headerLinkParser`. -/
def headerLinkParser : responseParserFunc := fun env resp =>
  let header := headerGet resp.RespHeader "Link"
  if header = "" then []
  else (env.ParseLinkTag header).map (fun value => NewNavigationRequestURL value "link" resp)

/-- Model of `headerLocationParser`. -/
def headerLocationParser : responseParserFunc := fun _ resp =>
  let header := headerGet resp.RespHeader "Location"
  if header = "" then []
  else [NewNavigationRequestURL header "location" resp]

/-- Model of `headerRefreshParser`. -/
def headerRefreshParser : responseParserFunc := fun env resp =>
  let header := headerGet resp.RespHeader "Refresh"
  if header = "" then []
  else
    let values := env.ParseRefreshTag header
    if values = "" then []
    else [NewNavigationRequestURL values "refresh" resp]

/-! ## Body based parsers (src/unnamed/part_000 lines 99-286) -/

/-- The `ok && value != ""` emission pattern shared by the tag parsers:
read one attribute and emit one request when present and non-empty. -/
def attrCandidate (resp : NavigationResponse) (source : String) (item : Element)
    (name : String) : List NavigationRequest :=
  match item.attr name with
  | some v => if v = "" then [] else [NewNavigationRequestURL v source resp]
  | none => []

/-- Model of `bodyATagParser`: every `a` element contributes its `href` and,
independently, its `ping`. -/
def bodyATagParser : responseParserFunc := fun _ resp =>
  resp.Reader.aTags.flatMap (fun item =>
    attrCandidate resp "a" item "href" ++ attrCandidate resp "a" item "ping")

/-- Model of `bodyEmbedTagParser` (`embed[src]`). -/
def bodyEmbedTagParser : responseParserFunc := fun _ resp =>
  (resp.Reader.embedTags.filter (fun e => e.hasAttr "src")).flatMap
    (fun item => attrCandidate resp "embed" item "src")

/-- Model of `bodyFrameTagParser` (`frame[src]`). -/
def bodyFrameTagParser : responseParserFunc := fun _ resp =>
  (resp.Reader.frameTags.filter (fun e => e.hasAttr "src")).flatMap
    (fun item => attrCandidate resp "frame" item "src")

/-- Model of `bodyIframeTagParser` (`iframe[src]`). -/
def bodyIframeTagParser : responseParserFunc := fun _ resp =>
  (resp.Reader.iframeTags.filter (fun e => e.hasAttr "src")).flatMap
    (fun item => attrCandidate resp "iframe" item "src")

/-- Model of `bodyInputSrcTagParser` (`input[type='image']`). -/
def bodyInputSrcTagParser : responseParserFunc := fun _ resp =>
  (resp.Reader.inputTags.filter (fun e => e.attr "type" = some "image")).flatMap
    (fun item => attrCandidate resp "input" item "src")

/-- Model of `bodyIsindexActionTagParser` (`isindex[action]`). -/
def bodyIsindexActionTagParser : responseParserFunc := fun _ resp =>
  (resp.Reader.isindexTags.filter (fun e => e.hasAttr "action")).flatMap
    (fun item => attrCandidate resp "isindex" item "action")

/-- Model of `bodyScriptSrcTagParser` (`script[src]`). -/
def bodyScriptSrcTagParser : responseParserFunc := fun _ resp =>
  (resp.Reader.scriptTags.filter (fun e => e.hasAttr "src")).flatMap
    (fun item => attrCandidate resp "script" item "src")

/-- Model of `bodyButtonFormactionTagParser` (`button[formaction]`); present in the
source but not registered in `responseParsers`. -/
def bodyButtonFormactionTagParser : responseParserFunc := fun _ resp =>
  (resp.Reader.buttonTags.filter (fun e => e.hasAttr "formaction")).flatMap
    (fun item => attrCandidate resp "button" item "formaction")

/-! ### The form parser, split along its let-bindings -/

/-- Model of `enctype` attribute with the source's default, also applied when the
attribute is present but empty. -/
def formEncType (item : Element) : String :=
  match item.attr "enctype" with
  | none => "application/x-www-form-urlencoded"
  | some s => if s = "" then "application/x-www-form-urlencoded" else s

/-- Model of `method` attribute: "" when absent, defaulted to GET, upper-cased. -/
def formMethod (item : Element) : String :=
  let m := (item.attr "method").getD ""
  strToUpper (if m = "" then "GET" else m)

/-- The data map returned by the fill heuristic for the form's inputs. -/
def formDataMap (env : Env) (item : Element) : List (String × String) :=
  env.FormInputFillSuggestions (item.inputs.map ConvertGoquerySelectionToFormInput)
    DefaultFormFillData

/-- The data-map entries actually written: the source's loop skips entries
with an empty key or value. -/
def formFields (env : Env) (item : Element) : List (String × String) :=
  (formDataMap env item).filter (fun p => p.1 ≠ "" && p.2 ≠ "")

/-- The `url.Values` written by the loop: populated only for non-multipart
forms (multipart fields go to the multipart writer instead). -/
def formQueryValues (env : Env) (item : Element) : List (String × String) :=
  if strStartsWith (formEncType item) "multipart/" then []
  else (formFields env item).foldl (fun m p => valuesSet m p.1 p.2) []

/-- The closed multipart body for the form's fields. -/
def formMultipartBody (env : Env) (item : Element) : String :=
  mpBody env.boundary (formFields env item)

/-- The guessed content type: the multipart writer's content type for
multipart forms, the original `enctype` otherwise. -/
def formContentType (env : Env) (item : Element) : String :=
  if strStartsWith (formEncType item) "multipart/" then FormDataContentType env.boundary
  else formEncType item

/-- Value of `req.Body` as assigned before the method switch: the multipart body for
multipart forms, the urlencoded field set otherwise. -/
def formBody (env : Env) (item : Element) : String :=
  if strStartsWith (formEncType item) "multipart/" then formMultipartBody env item
  else valuesEncode (formQueryValues env item)

/-- One iteration of the `form[action]` loop: `none` when the form is
skipped (no `action`, or the action does not resolve), otherwise the single
request emitted for it, with the GET/POST-specific shaping applied. -/
def formTagRequest (env : Env) (resp : NavigationResponse) (item : Element) :
    Option NavigationRequest :=
  match item.attr "action" with
  | none => none
  | some href =>
    let actionURL := resp.AbsoluteURL href
    if actionURL = "" then none
    else
      let method := formMethod item
      let base : NavigationRequest :=
        { Method := method
          URL := actionURL
          Body := formBody env item
          Headers := []
          Depth := resp.Depth
          Source := "form" }
      some (if method = "GET" then
              { base with URL := actionURL ++ "?" ++ valuesEncode (formQueryValues env item) }
            else if method = "POST" then
              { base with Headers := [("Content-Type", formContentType env item)] }
            else base)

/-- Model of `bodyFormTagParser` (`form[action]`): one optional request per form. -/
def bodyFormTagParser : responseParserFunc := fun env resp =>
  (resp.Reader.formTags.filter (fun e => e.hasAttr "action")).filterMap
    (fun item => formTagRequest env resp item)

/-- Model of `bodyMetaContentTagParser` (`meta[http-equiv='refresh']`). -/
def bodyMetaContentTagParser : responseParserFunc := fun env resp =>
  (resp.Reader.metaTags.filter (fun e => e.attr "http-equiv" = some "refresh")).flatMap
    (fun item =>
      match item.attr "content" with
      | none => []
      | some header =>
        let values := env.ParseRefreshTag header
        if values = "" then []
        else [NewNavigationRequestURL values "meta" resp])

/-! ## JS regex based parsers (src/unnamed/part_000 lines 292-325) -/

/-- Model of `scriptContentRegexParser`: for every `script` element, gated per
element on `ScrapeJSResponses`, skip empty text, emit one request per
extracted endpoint. -/
def scriptContentRegexParser : responseParserFunc := fun env resp =>
  resp.Reader.scriptTags.flatMap (fun item =>
    if !resp.Options.Options.ScrapeJSResponses then []
    else
      let text := item.text
      if text = "" then []
      else (env.ExtractRelativeEndpoints text).map
        (fun it => NewNavigationRequestURL it "script-content" resp))

/-- Model of `scriptJSFileRegexParser`: gated on `ScrapeJSResponses`, applies only
when the response URL path ends in `.js` or the `Content-Type` contains
`/javascript`; then one request per endpoint extracted from the body. -/
def scriptJSFileRegexParser : responseParserFunc := fun env resp =>
  if !resp.Options.Options.ScrapeJSResponses then []
  else
    let contentType := headerGet resp.RespHeader "Content-Type"
    if !(strEndsWith resp.RespRequestURLPath ".js" || strContains contentType "/javascript") then []
    else (env.ExtractRelativeEndpoints resp.Body).map
      (fun it => NewNavigationRequestURL it "js-file" resp)

/-! ## The registry and the pipeline (src/unnamed/part_000 lines 18-46) -/

/-- Model of `responseParsers`: the registered parser list, in registration order;
`bodyButtonFormactionTagParser` is not in it. -/
def responseParsers : List responseParserFunc :=
  [headerContentLocationParser,
   headerLinkParser,
   headerLocationParser,
   headerRefreshParser,
   bodyATagParser,
   bodyEmbedTagParser,
   bodyFrameTagParser,
   bodyIframeTagParser,
   bodyInputSrcTagParser,
   bodyIsindexActionTagParser,
   bodyScriptSrcTagParser,
   bodyFormTagParser,
   bodyMetaContentTagParser,
   scriptContentRegexParser,
   scriptJSFileRegexParser]

/-- Model of `parseResponse`: run every registered parser on the response, emissions
concatenated in registration order. -/
def parseResponse (env : Env) (resp : NavigationResponse) : List NavigationRequest :=
  (responseParsers.map (fun p => p env resp)).flatten

/-- Depth of the navigation response built by `Crawler.makeRequest`
(src/pkg/standard/request.go line 20): `Depth: request.Depth + 1`. -/
def makeRequestResponseDepth (request : NavigationRequest) : Nat :=
  request.Depth + 1

/-! ## Shared helper lemmas -/

/-- The pipeline output is exactly the concatenation, in registration order,
of the fifteen registered strategies' outputs. -/
theorem parseResponse_eq (env : Env) (resp : NavigationResponse) :
    parseResponse env resp =
      headerContentLocationParser env resp ++ headerLinkParser env resp ++
      headerLocationParser env resp ++ headerRefreshParser env resp ++
      bodyATagParser env resp ++ bodyEmbedTagParser env resp ++
      bodyFrameTagParser env resp ++ bodyIframeTagParser env resp ++
      bodyInputSrcTagParser env resp ++ bodyIsindexActionTagParser env resp ++
      bodyScriptSrcTagParser env resp ++ bodyFormTagParser env resp ++
      bodyMetaContentTagParser env resp ++ scriptContentRegexParser env resp ++
      scriptJSFileRegexParser env resp := by
  simp [parseResponse, responseParsers, List.append_assoc]

/-! ## Test fixtures (concrete inputs for witnesses and counterexamples) -/

/-- A document with no elements at all. -/
def emptyDoc : Document :=
  { aTags := [], embedTags := [], frameTags := [], iframeTags := [], inputTags := []
    isindexTags := [], scriptTags := [], buttonTags := [], formTags := [], metaTags := [] }

/-- A concrete instantiation of the abstract environment, used only to
build witnesses and counterexamples. -/
def exEnv : Env :=
  { ParseLinkTag := fun _ => []
    ParseRefreshTag := fun _ => ""
    ExtractRelativeEndpoints := fun s => if s = "" then [] else [s]
    FormInputFillSuggestions := fun inputs _ =>
      inputs.map (fun i => (i.Name, if i.Value = "" then "filled" else i.Value))
    boundary := "b123" }

/-- A response with JS scraping disabled but plenty of scrapeable material. -/
def c7resp : NavigationResponse :=
  { Depth := 1
    Options := { Options := { ScrapeJSResponses := false } }
    Body := "var a = fetchData;"
    RespHeader := [("Content-Type", "application/javascript")]
    RespRequestURLPath := "/app.js"
    Reader := { emptyDoc with scriptTags := [Element.mk [] [] "callApi"] }
    AbsoluteURL := fun s => s }

/-- A JavaScript response (by path) with JS scraping enabled. -/
def c8resp : NavigationResponse :=
  { Depth := 1
    Options := { Options := { ScrapeJSResponses := true } }
    Body := "loadPath"
    RespHeader := []
    RespRequestURLPath := "/static/app.js"
    Reader := emptyDoc
    AbsoluteURL := fun s => s }

/-! ## C5 -/

/-- C5: for every response, the pipeline runs every registered extraction
strategy exactly once, in fixed registration order (header parsers, then
body/tag parsers, then JS-regex parsers), each strategy contributing its
full match list before the next; the emitted stream is exactly the
concatenation of the fifteen strategies' outputs, so a later strategy is
never skipped because an earlier one emitted nothing. -/
theorem c5_pipeline_runs_all_strategies_in_order (env : Env) (resp : NavigationResponse) :
    parseResponse env resp =
      headerContentLocationParser env resp ++ headerLinkParser env resp ++
      headerLocationParser env resp ++ headerRefreshParser env resp ++
      bodyATagParser env resp ++ bodyEmbedTagParser env resp ++
      bodyFrameTagParser env resp ++ bodyIframeTagParser env resp ++
      bodyInputSrcTagParser env resp ++ bodyIsindexActionTagParser env resp ++
      bodyScriptSrcTagParser env resp ++ bodyFormTagParser env resp ++
      bodyMetaContentTagParser env resp ++ scriptContentRegexParser env resp ++
      scriptJSFileRegexParser env resp :=
  parseResponse_eq env resp

/-! ## C7 -/

/-- C7: when `ScrapeJSResponses` is false, the script-content and js-file
strategies emit zero candidates for every response, regardless of script
content, URL, or Content-Type. -/
theorem c7_js_strategies_disabled_emit_nothing (env : Env) (resp : NavigationResponse)
    (h : resp.Options.Options.ScrapeJSResponses = false) :
    scriptContentRegexParser env resp = [] ∧ scriptJSFileRegexParser env resp = [] := by
  constructor
  · unfold scriptContentRegexParser
    rw [h]
    simp
  · unfold scriptJSFileRegexParser
    rw [h]
    simp

/-- Witness for C7: a concrete disabled-flag response whose document has a
script element, whose path ends in `.js` and whose Content-Type is
JavaScript still yields zero candidates from both strategies. -/
theorem c7_witness :
    scriptContentRegexParser exEnv c7resp = [] ∧ scriptJSFileRegexParser exEnv c7resp = [] :=
  c7_js_strategies_disabled_emit_nothing exEnv c7resp rfl

/-! ## C8 -/

/-- C8: with JS scraping enabled, the js-file strategy applies exactly when
the response's request URL path ends in `.js` or its Content-Type contains
`/javascript`; when it applies it emits one request per endpoint extracted
from the whole response body, each with source "js-file", and it emits
nothing otherwise (so a non-empty emission implies the condition). -/
theorem c8_jsfile_applies_iff_js_resource (env : Env) (resp : NavigationResponse)
    (h : resp.Options.Options.ScrapeJSResponses = true) :
    scriptJSFileRegexParser env resp =
      (if strEndsWith resp.RespRequestURLPath ".js" ||
          strContains (headerGet resp.RespHeader "Content-Type") "/javascript" then
        (env.ExtractRelativeEndpoints resp.Body).map
          (fun it => NewNavigationRequestURL it "js-file" resp)
      else []) := by
  unfold scriptJSFileRegexParser
  rw [h]
  cases hc : (strEndsWith resp.RespRequestURLPath ".js" ||
      strContains (headerGet resp.RespHeader "Content-Type") "/javascript") <;>
    simp [hc]

/-- Witness for C8: a concrete enabled-flag response whose path ends in
`.js` gets exactly the extracted endpoints emitted with source "js-file". -/
theorem c8_witness :
    scriptJSFileRegexParser exEnv c8resp =
      (if strEndsWith c8resp.RespRequestURLPath ".js" ||
          strContains (headerGet c8resp.RespHeader "Content-Type") "/javascript" then
        (exEnv.ExtractRelativeEndpoints c8resp.Body).map
          (fun it => NewNavigationRequestURL it "js-file" c8resp)
      else []) ∧
    (scriptJSFileRegexParser exEnv c8resp).map (fun r => (r.URL, r.Source)) =
      [("loadPath", "js-file")] :=
  ⟨c8_jsfile_applies_iff_js_resource exEnv c8resp rfl, by decide⟩

/-! ## Form parser characterization -/

/-- When a form has an `action` attribute that resolves to a non-empty URL,
`formTagRequest` emits exactly one request, shaped by the method switch:
GET appends the urlencoded query values to the URL, POST attaches the
Content-Type header, any other method leaves the base request unchanged;
in every case the body is `formBody` and the source "form". -/
theorem formTagRequest_some (env : Env) (resp : NavigationResponse) (item : Element)
    (href : String) (hact : item.attr "action" = some href)
    (hres : resp.AbsoluteURL href ≠ "") :
    formTagRequest env resp item = some
      (if formMethod item = "GET" then
        { Method := formMethod item
          URL := resp.AbsoluteURL href ++ "?" ++ valuesEncode (formQueryValues env item)
          Body := formBody env item
          Headers := []
          Depth := resp.Depth
          Source := "form" }
      else if formMethod item = "POST" then
        { Method := formMethod item
          URL := resp.AbsoluteURL href
          Body := formBody env item
          Headers := [("Content-Type", formContentType env item)]
          Depth := resp.Depth
          Source := "form" }
      else
        { Method := formMethod item
          URL := resp.AbsoluteURL href
          Body := formBody env item
          Headers := []
          Depth := resp.Depth
          Source := "form" }) := by
  unfold formTagRequest
  rw [hact]
  simp only [hres, if_neg, if_false]

/-- Any request produced by `formTagRequest` has source "form" and the
parent response's depth. -/
theorem formTagRequest_fields (env : Env) (resp : NavigationResponse) (item : Element)
    (req : NavigationRequest) (h : formTagRequest env resp item = some req) :
    req.Source = "form" ∧ req.Depth = resp.Depth := by
  unfold formTagRequest at h
  cases hA : item.attr "action" with
  | none => rw [hA] at h; exact absurd h (by simp)
  | some href =>
    rw [hA] at h
    simp only at h
    split at h
    · exact absurd h (by simp)
    · rw [Option.some_inj] at h
      subst h
      split
      · exact ⟨rfl, rfl⟩
      · split
        · exact ⟨rfl, rfl⟩
        · exact ⟨rfl, rfl⟩

/-- Any request emitted by the form parser has source "form" and the parent
response's depth. -/
theorem bodyFormTagParser_fields (env : Env) (resp : NavigationResponse)
    (req : NavigationRequest) (h : req ∈ bodyFormTagParser env resp) :
    req.Source = "form" ∧ req.Depth = resp.Depth := by
  unfold bodyFormTagParser at h
  rw [List.mem_filterMap] at h
  obtain ⟨item, -, hm⟩ := h
  exact formTagRequest_fields env resp item req hm

/-! ## Source tags of the emitted requests -/

/-- A request emitted through `attrCandidate` carries the given source tag. -/
theorem mem_attrCandidate_source (resp : NavigationResponse) (s : String) (item : Element)
    (name : String) (req : NavigationRequest) (h : req ∈ attrCandidate resp s item name) :
    req.Source = s := by
  cases hA : item.attr name with
  | none => simp [attrCandidate, hA] at h
  | some v =>
    simp only [attrCandidate, hA] at h
    split at h
    · simp at h
    · rw [List.mem_singleton] at h; subst h; rfl

/-- A request emitted by a tag parser built from `attrCandidate` over a list
of elements carries the given source tag. -/
theorem mem_flatMap_attrCandidate_source (resp : NavigationResponse) (s : String)
    (name : String) (l : List Element) (req : NavigationRequest)
    (h : req ∈ l.flatMap (fun item => attrCandidate resp s item name)) :
    req.Source = s := by
  rw [List.mem_flatMap] at h
  obtain ⟨item, -, hm⟩ := h
  exact mem_attrCandidate_source resp s item name req hm

/-- Requests from `headerContentLocationParser` have source
"content-location". -/
theorem headerContentLocationParser_source (env : Env) (resp : NavigationResponse)
    (req : NavigationRequest) (h : req ∈ headerContentLocationParser env resp) :
    req.Source = "content-location" := by
  simp only [headerContentLocationParser] at h
  split at h
  · simp at h
  · rw [List.mem_singleton] at h; subst h; rfl

/-- Requests from `headerLinkParser` have source "link". -/
theorem headerLinkParser_source (env : Env) (resp : NavigationResponse)
    (req : NavigationRequest) (h : req ∈ headerLinkParser env resp) :
    req.Source = "link" := by
  simp only [headerLinkParser] at h
  split at h
  · simp at h
  · rw [List.mem_map] at h; obtain ⟨v, -, hv⟩ := h; subst hv; rfl

/-- Requests from `headerLocationParser` have source "location". -/
theorem headerLocationParser_source (env : Env) (resp : NavigationResponse)
    (req : NavigationRequest) (h : req ∈ headerLocationParser env resp) :
    req.Source = "location" := by
  simp only [headerLocationParser] at h
  split at h
  · simp at h
  · rw [List.mem_singleton] at h; subst h; rfl

/-- Requests from `headerRefreshParser` have source "refresh". -/
theorem headerRefreshParser_source (env : Env) (resp : NavigationResponse)
    (req : NavigationRequest) (h : req ∈ headerRefreshParser env resp) :
    req.Source = "refresh" := by
  simp only [headerRefreshParser] at h
  split at h
  · simp at h
  · split at h
    · simp at h
    · rw [List.mem_singleton] at h; subst h; rfl

/-- Requests from `bodyATagParser` have source "a". -/
theorem bodyATagParser_source (env : Env) (resp : NavigationResponse)
    (req : NavigationRequest) (h : req ∈ bodyATagParser env resp) :
    req.Source = "a" := by
  simp only [bodyATagParser] at h
  rw [List.mem_flatMap] at h
  obtain ⟨item, -, hm⟩ := h
  rw [List.mem_append] at hm
  cases hm with
  | inl hm => exact mem_attrCandidate_source resp "a" item "href" req hm
  | inr hm => exact mem_attrCandidate_source resp "a" item "ping" req hm

/-- Requests from `bodyMetaContentTagParser` have source "meta". -/
theorem bodyMetaContentTagParser_source (env : Env) (resp : NavigationResponse)
    (req : NavigationRequest) (h : req ∈ bodyMetaContentTagParser env resp) :
    req.Source = "meta" := by
  simp only [bodyMetaContentTagParser] at h
  rw [List.mem_flatMap] at h
  obtain ⟨item, -, hm⟩ := h
  cases hA : item.attr "content" with
  | none => rw [hA] at hm; simp at hm
  | some header =>
    rw [hA] at hm
    simp only at hm
    split at hm
    · simp at hm
    · rw [List.mem_singleton] at hm; subst hm; rfl

/-- Requests from `scriptContentRegexParser` have source "script-content". -/
theorem scriptContentRegexParser_source (env : Env) (resp : NavigationResponse)
    (req : NavigationRequest) (h : req ∈ scriptContentRegexParser env resp) :
    req.Source = "script-content" := by
  simp only [scriptContentRegexParser] at h
  rw [List.mem_flatMap] at h
  obtain ⟨item, -, hm⟩ := h
  split at hm
  · simp at hm
  · split at hm
    · simp at hm
    · rw [List.mem_map] at hm; obtain ⟨v, -, hv⟩ := hm; subst hv; rfl

/-- Requests from `scriptJSFileRegexParser` have source "js-file". -/
theorem scriptJSFileRegexParser_source (env : Env) (resp : NavigationResponse)
    (req : NavigationRequest) (h : req ∈ scriptJSFileRegexParser env resp) :
    req.Source = "js-file" := by
  simp only [scriptJSFileRegexParser] at h
  split at h
  · simp at h
  · split at h
    · simp at h
    · rw [List.mem_map] at h; obtain ⟨v, -, hv⟩ := h; subst hv; rfl

/-- Requests from `bodyEmbedTagParser` have source "embed". -/
theorem bodyEmbedTagParser_source (env : Env) (resp : NavigationResponse)
    (req : NavigationRequest) (h : req ∈ bodyEmbedTagParser env resp) :
    req.Source = "embed" := by
  simp only [bodyEmbedTagParser] at h
  exact mem_flatMap_attrCandidate_source resp "embed" "src" _ req h

/-- Requests from `bodyFrameTagParser` have source "frame". -/
theorem bodyFrameTagParser_source (env : Env) (resp : NavigationResponse)
    (req : NavigationRequest) (h : req ∈ bodyFrameTagParser env resp) :
    req.Source = "frame" := by
  simp only [bodyFrameTagParser] at h
  exact mem_flatMap_attrCandidate_source resp "frame" "src" _ req h

/-- Requests from `bodyIframeTagParser` have source "iframe". -/
theorem bodyIframeTagParser_source (env : Env) (resp : NavigationResponse)
    (req : NavigationRequest) (h : req ∈ bodyIframeTagParser env resp) :
    req.Source = "iframe" := by
  simp only [bodyIframeTagParser] at h
  exact mem_flatMap_attrCandidate_source resp "iframe" "src" _ req h

/-- Requests from `bodyInputSrcTagParser` have source "input". -/
theorem bodyInputSrcTagParser_source (env : Env) (resp : NavigationResponse)
    (req : NavigationRequest) (h : req ∈ bodyInputSrcTagParser env resp) :
    req.Source = "input" := by
  simp only [bodyInputSrcTagParser] at h
  exact mem_flatMap_attrCandidate_source resp "input" "src" _ req h

/-- Requests from `bodyIsindexActionTagParser` have source "isindex". -/
theorem bodyIsindexActionTagParser_source (env : Env) (resp : NavigationResponse)
    (req : NavigationRequest) (h : req ∈ bodyIsindexActionTagParser env resp) :
    req.Source = "isindex" := by
  simp only [bodyIsindexActionTagParser] at h
  exact mem_flatMap_attrCandidate_source resp "isindex" "action" _ req h

/-- Requests from `bodyScriptSrcTagParser` have source "script". -/
theorem bodyScriptSrcTagParser_source (env : Env) (resp : NavigationResponse)
    (req : NavigationRequest) (h : req ∈ bodyScriptSrcTagParser env resp) :
    req.Source = "script" := by
  simp only [bodyScriptSrcTagParser] at h
  exact mem_flatMap_attrCandidate_source resp "script" "src" _ req h

/-! ## C9 -/

/-- C9: the pipeline never emits a request with source tag "button": every
request emitted by `parseResponse` carries one of the fifteen registered
strategies' source tags, and "button" (which only
`bodyButtonFormactionTagParser`, absent from `responseParsers`, would
attach) is not among them. -/
theorem c9_pipeline_never_emits_button (env : Env) (resp : NavigationResponse)
    (req : NavigationRequest) (h : req ∈ parseResponse env resp) :
    req.Source ≠ "button" := by
  rw [parseResponse_eq] at h
  simp only [List.mem_append, or_assoc] at h
  rcases h with h|h|h|h|h|h|h|h|h|h|h|h|h|h|h
  · rw [headerContentLocationParser_source env resp req h]; decide
  · rw [headerLinkParser_source env resp req h]; decide
  · rw [headerLocationParser_source env resp req h]; decide
  · rw [headerRefreshParser_source env resp req h]; decide
  · rw [bodyATagParser_source env resp req h]; decide
  · rw [bodyEmbedTagParser_source env resp req h]; decide
  · rw [bodyFrameTagParser_source env resp req h]; decide
  · rw [bodyIframeTagParser_source env resp req h]; decide
  · rw [bodyInputSrcTagParser_source env resp req h]; decide
  · rw [bodyIsindexActionTagParser_source env resp req h]; decide
  · rw [bodyScriptSrcTagParser_source env resp req h]; decide
  · rw [(bodyFormTagParser_fields env resp req h).1]; decide
  · rw [bodyMetaContentTagParser_source env resp req h]; decide
  · rw [scriptContentRegexParser_source env resp req h]; decide
  · rw [scriptJSFileRegexParser_source env resp req h]; decide

/-- A response carrying a `Content-Location` header and a
`button[formaction]` element. -/
def c9resp : NavigationResponse :=
  { Depth := 0
    Options := { Options := { ScrapeJSResponses := false } }
    Body := ""
    RespHeader := [("Content-Location", "/x")]
    RespRequestURLPath := "/"
    Reader := { emptyDoc with buttonTags := [Element.mk [("formaction", "/go")] [] ""] }
    AbsoluteURL := fun s => s }

/-- Witness for C9: the one request the pipeline emits for `c9resp` (from
its Content-Location header) does not have source "button", even though the
document contains a `button[formaction]` element. -/
theorem c9_witness :
    (NewNavigationRequestURL "/x" "content-location" c9resp).Source ≠ "button" :=
  c9_pipeline_never_emits_button exEnv c9resp _ (by decide)

/-! ## C2 -/

/-- A form-only response fetched at depth 3. -/
def c2resp : NavigationResponse :=
  { Depth := 3
    Options := { Options := { ScrapeJSResponses := false } }
    Body := ""
    RespHeader := []
    RespRequestURLPath := "/"
    Reader := { emptyDoc with formTags := [Element.mk [("action", "https://example.com/a")] [] ""] }
    AbsoluteURL := fun s => s }

/-- C2 counterexample: the pipeline, run on a response of depth 3 whose
document holds one form, emits exactly one request and its depth field is
3, not 3 + 1 — refuting "the request's depth equals the parent response's
depth plus 1" for form-parser emissions. -/
theorem c2_counterexample :
    c2resp.Depth = 3 ∧
    (parseResponse exEnv c2resp).map NavigationRequest.Depth = [3] ∧
    (3 : Nat) ≠ 3 + 1 := by
  refine ⟨rfl, by decide, by decide⟩

/-- C2 (amended): a request emitted by the form parser carries the parent
response's depth unchanged; the + 1 increment happens when `makeRequest`
builds the child response from the request, so along any path from the seed
the depth still increases by exactly one per fetch hop. -/
theorem c2_amended_form_depth (env : Env) (resp : NavigationResponse)
    (req : NavigationRequest) (h : req ∈ bodyFormTagParser env resp) :
    req.Depth = resp.Depth ∧ makeRequestResponseDepth req = resp.Depth + 1 := by
  have h2 := (bodyFormTagParser_fields env resp req h).2
  exact ⟨h2, by simp [makeRequestResponseDepth, h2]⟩

/-- Witness for C2: the concrete form request emitted for `c2resp` has
depth 3 = `c2resp.Depth`, and the response `makeRequest` would build from
it has depth 4. -/
theorem c2_witness :
    ({ Method := "GET", URL := "https://example.com/a?", Body := "", Headers := [],
       Depth := 3, Source := "form" } : NavigationRequest).Depth = c2resp.Depth ∧
    makeRequestResponseDepth
      { Method := "GET", URL := "https://example.com/a?", Body := "", Headers := [],
        Depth := 3, Source := "form" } = c2resp.Depth + 1 :=
  c2_amended_form_depth exEnv c2resp _ (by decide)

/-! ## C1 -/

/-- A form with its `method` attribute omitted and one text input `q=1`. -/
def c1form : Element :=
  Element.mk [("action", "https://example.com/s")]
    [Element.mk [("name", "q"), ("value", "1")] [] ""] ""

/-- A response whose document holds only `c1form`. -/
def c1resp : NavigationResponse :=
  { Depth := 1
    Options := { Options := { ScrapeJSResponses := false } }
    Body := ""
    RespHeader := []
    RespRequestURLPath := "/"
    Reader := { emptyDoc with formTags := [c1form] }
    AbsoluteURL := fun s => s }

/-- C1 counterexample: for a form with `method` omitted and one field, the
emitted request is GET and the encoded field set `q=1` does appear in the
URL's query string — but the request body is `q=1` as well, not empty: the
would-be body is not discarded. -/
theorem c1_counterexample :
    (bodyFormTagParser exEnv c1resp).map (fun r => (r.Method, r.URL, r.Body)) =
      [("GET", "https://example.com/s?q=1", "q=1")] ∧ ("q=1" : String) ≠ "" := by
  refine ⟨by decide, by decide⟩

/-- C1 (amended): for every form with `method` omitted (and a non-multipart
enctype), the emitted request has method GET and the urlencoded field set
appears in the request URL's query string — but the would-be body is not
discarded: the request's body carries the same urlencoded field set. -/
theorem c1_amended_get_query_string_and_body (env : Env) (resp : NavigationResponse)
    (item : Element) (href : String)
    (hact : item.attr "action" = some href)
    (hres : resp.AbsoluteURL href ≠ "")
    (hmeth : item.attr "method" = none)
    (henc : strStartsWith (formEncType item) "multipart/" = false) :
    formTagRequest env resp item = some
      { Method := "GET"
        URL := resp.AbsoluteURL href ++ "?" ++ valuesEncode (formQueryValues env item)
        Body := valuesEncode (formQueryValues env item)
        Headers := []
        Depth := resp.Depth
        Source := "form" } := by
  have hm : formMethod item = "GET" := by
    simp only [formMethod, hmeth]
    decide
  have hbody : formBody env item = valuesEncode (formQueryValues env item) := by
    simp [formBody, henc]
  rw [formTagRequest_some env resp item href hact hres, hm]
  simp [hbody]

/-- Witness for C1: the amended statement instantiated at `c1form`. -/
theorem c1_witness :
    formTagRequest exEnv c1resp c1form = some
      { Method := "GET"
        URL := c1resp.AbsoluteURL "https://example.com/s" ++ "?" ++
          valuesEncode (formQueryValues exEnv c1form)
        Body := valuesEncode (formQueryValues exEnv c1form)
        Headers := []
        Depth := c1resp.Depth
        Source := "form" } :=
  c1_amended_get_query_string_and_body exEnv c1resp c1form "https://example.com/s"
    (by decide) (by decide) (by decide) (by decide)

/-! ## C3 -/

/-- A form with method `put` and one text input `q=1`. -/
def c3form : Element :=
  Element.mk [("action", "https://example.com/p3"), ("method", "put")]
    [Element.mk [("name", "q"), ("value", "1")] [] ""] ""

/-- A response whose document holds only `c3form`. -/
def c3resp : NavigationResponse :=
  { Depth := 1
    Options := { Options := { ScrapeJSResponses := false } }
    Body := ""
    RespHeader := []
    RespRequestURLPath := "/"
    Reader := { emptyDoc with formTags := [c3form] }
    AbsoluteURL := fun s => s }

/-- C3 counterexample: a form with method `put` (non-GET after
upper-casing) emits a request that carries the encoded payload as its body
but has NO headers at all — the Content-Type header is only attached for
method POST, so the claim fails for every other non-GET method. -/
theorem c3_counterexample :
    (bodyFormTagParser exEnv c3resp).map (fun r => (r.Method, r.Body, r.Headers)) =
      [("PUT", "q=1", ([] : List (String × String)))] ∧ ("PUT" : String) ≠ "GET" := by
  refine ⟨by decide, by decide⟩

/-- C3 (amended): for every form whose (uppercased, default-GET) method is
not GET, the emitted request carries the encoded field payload as its body;
the Content-Type header (multipart boundary type or original enctype) is
set when the method is exactly POST, and no header is set for any other
non-GET method. -/
theorem c3_amended_nonget_body_post_only_header (env : Env) (resp : NavigationResponse)
    (item : Element) (href : String)
    (hact : item.attr "action" = some href)
    (hres : resp.AbsoluteURL href ≠ "")
    (hm : formMethod item ≠ "GET") :
    formTagRequest env resp item = some
      { Method := formMethod item
        URL := resp.AbsoluteURL href
        Body := formBody env item
        Headers := if formMethod item = "POST" then
            [("Content-Type", formContentType env item)]
          else []
        Depth := resp.Depth
        Source := "form" } := by
  rw [formTagRequest_some env resp item href hact hres, if_neg hm]
  by_cases hp : formMethod item = "POST"
  · rw [if_pos hp, if_pos hp]
  · rw [if_neg hp, if_neg hp]

/-- Witness for C3: the amended statement instantiated at `c3form`. -/
theorem c3_witness :
    formTagRequest exEnv c3resp c3form = some
      { Method := formMethod c3form
        URL := c3resp.AbsoluteURL "https://example.com/p3"
        Body := formBody exEnv c3form
        Headers := if formMethod c3form = "POST" then
            [("Content-Type", formContentType exEnv c3form)]
          else []
        Depth := c3resp.Depth
        Source := "form" } :=
  c3_amended_nonget_body_post_only_header exEnv c3resp c3form "https://example.com/p3"
    (by decide) (by decide) (by decide)

/-! ## C4 -/

/-- A multipart form with its `method` attribute omitted. -/
def c4form : Element :=
  Element.mk [("action", "https://example.com/u"), ("enctype", "multipart/form-data")] [] ""

/-- A response whose document holds only `c4form`. -/
def c4resp : NavigationResponse :=
  { Depth := 1
    Options := { Options := { ScrapeJSResponses := false } }
    Body := ""
    RespHeader := []
    RespRequestURLPath := "/"
    Reader := { emptyDoc with formTags := [c4form] }
    AbsoluteURL := fun s => s }

/-- C4 counterexample: a form with a `multipart/` enctype but method GET
(the default) emits a request whose body is multipart-encoded, yet with NO
Content-Type header at all — the header carrying the boundary is only set
for method POST, so the claim fails as stated for every multipart form
whose method is not POST. -/
theorem c4_counterexample :
    strStartsWith (formEncType c4form) "multipart/" = true ∧
    (bodyFormTagParser exEnv c4resp).map (fun r => (r.Method, r.Headers, r.Body)) =
      [("GET", ([] : List (String × String)), "\r\n--b123--\r\n")] := by
  refine ⟨by decide, by decide⟩

/-- C4 (amended): for every form whose enctype starts with `multipart/` and
whose method is POST, the emitted request's body is the multipart
serialization of the filled fields under the writer's boundary, and the
Content-Type header carries that same boundary (Go's generated boundaries
contain no character forcing quoting, the hypothesis on `env.boundary`);
multipart forms with any other method get no Content-Type header (see the
counterexample). -/
theorem c4_amended_multipart_post_boundary_match (env : Env) (resp : NavigationResponse)
    (item : Element) (href : String)
    (hact : item.attr "action" = some href)
    (hres : resp.AbsoluteURL href ≠ "")
    (henc : strStartsWith (formEncType item) "multipart/" = true)
    (hm : formMethod item = "POST")
    (hb : containsAnyOf env.boundary mimeSpecialChars = false) :
    formTagRequest env resp item = some
      { Method := "POST"
        URL := resp.AbsoluteURL href
        Body := mpBody env.boundary (formFields env item)
        Headers := [("Content-Type", "multipart/form-data; boundary=" ++ env.boundary)]
        Depth := resp.Depth
        Source := "form" } := by
  have hct : formContentType env item = "multipart/form-data; boundary=" ++ env.boundary := by
    simp only [formContentType, henc, if_true, FormDataContentType, hb, Bool.false_eq_true,
      if_false]
  have hbody : formBody env item = mpBody env.boundary (formFields env item) := by
    simp only [formBody, henc, if_true, formMultipartBody]
  rw [formTagRequest_some env resp item href hact hres, hm]
  simp [hct, hbody]

/-- A multipart POST form with one input `f=v`. -/
def c4wform : Element :=
  Element.mk
    [("action", "https://example.com/up"), ("method", "post"),
     ("enctype", "multipart/form-data")]
    [Element.mk [("name", "f"), ("value", "v")] [] ""] ""

/-- A response whose document holds only `c4wform`. -/
def c4wresp : NavigationResponse :=
  { Depth := 2
    Options := { Options := { ScrapeJSResponses := false } }
    Body := ""
    RespHeader := []
    RespRequestURLPath := "/"
    Reader := { emptyDoc with formTags := [c4wform] }
    AbsoluteURL := fun s => s }

/-- Witness for C4: the amended statement instantiated at `c4wform`, with
the boundary of `exEnv`. -/
theorem c4_witness :
    formTagRequest exEnv c4wresp c4wform = some
      { Method := "POST"
        URL := c4wresp.AbsoluteURL "https://example.com/up"
        Body := mpBody exEnv.boundary (formFields exEnv c4wform)
        Headers := [("Content-Type", "multipart/form-data; boundary=" ++ exEnv.boundary)]
        Depth := c4wresp.Depth
        Source := "form" } :=
  c4_amended_multipart_post_boundary_match exEnv c4wresp c4wform "https://example.com/up"
    (by decide) (by decide) (by decide) (by decide) (by decide)

/-! ## C6 -/

/-- A multipart form with an `action` and zero input fields. -/
def c6form : Element :=
  Element.mk [("action", "https://example.com/m"), ("enctype", "multipart/mixed")] [] ""

/-- A response whose document holds only `c6form`. -/
def c6resp : NavigationResponse :=
  { Depth := 1
    Options := { Options := { ScrapeJSResponses := false } }
    Body := ""
    RespHeader := []
    RespRequestURLPath := "/"
    Reader := { emptyDoc with formTags := [c6form] }
    AbsoluteURL := fun s => s }

/-- C6 counterexample: a multipart form with an `action` and zero input
fields emits exactly one request, but its encoded payload is not empty: the
query string is empty, yet the body consists of the multipart closing
boundary marker. -/
theorem c6_counterexample :
    (bodyFormTagParser exEnv c6resp).map (fun r => (r.URL, r.Body)) =
      [("https://example.com/m?", "\r\n--b123--\r\n")] ∧
    ("\r\n--b123--\r\n" : String) ≠ "" := by
  refine ⟨by decide, by decide⟩

/-- C6 (amended): a form with a missing `action` attribute yields zero
requests (first conjunct, for any response all of whose forms lack the
attribute); a form with an `action` that resolves but zero input fields
yields exactly one request, whose urlencoded payload (query values) is
empty, and whose body is empty for non-multipart enctypes but consists of
the multipart closing boundary marker for multipart enctypes. -/
theorem c6_amended_no_action_and_empty_forms (env : Env) (resp : NavigationResponse)
    (item : Element) (href : String)
    (hact : item.attr "action" = some href)
    (hres : resp.AbsoluteURL href ≠ "")
    (hforms : resp.Reader.formTags = [item])
    (hinputs : item.inputs = [])
    (hfill : env.FormInputFillSuggestions [] DefaultFormFillData = []) :
    (∀ resp' : NavigationResponse,
        (∀ e ∈ resp'.Reader.formTags, e.attr "action" = none) →
        bodyFormTagParser env resp' = []) ∧
    (bodyFormTagParser env resp).length = 1 ∧
    (∀ req ∈ bodyFormTagParser env resp,
        req.Body = (if strStartsWith (formEncType item) "multipart/" then
            "\r\n--" ++ env.boundary ++ "--\r\n"
          else "")) ∧
    valuesEncode (formQueryValues env item) = "" := by
  have hfields : formFields env item = [] := by
    simp only [formFields, formDataMap, hinputs, List.map_nil, hfill, List.filter_nil]
  have hqv : formQueryValues env item = [] := by
    simp only [formQueryValues, hfields]
    split <;> rfl
  have hbody : formBody env item = (if strStartsWith (formEncType item) "multipart/" then
      "\r\n--" ++ env.boundary ++ "--\r\n" else "") := by
    by_cases hmp : strStartsWith (formEncType item) "multipart/" = true
    · simp only [formBody, hmp, if_true, formMultipartBody, hfields, mpBody, List.foldl_nil]
      rfl
    · rw [Bool.not_eq_true] at hmp
      simp only [formBody, hmp, Bool.false_eq_true, if_false, hqv]
      rfl
  have hha : item.hasAttr "action" = true := by
    rw [Element.hasAttr, hact]
    rfl
  have hlist : bodyFormTagParser env resp =
      [if formMethod item = "GET" then
        { Method := formMethod item
          URL := resp.AbsoluteURL href ++ "?" ++ valuesEncode (formQueryValues env item)
          Body := formBody env item
          Headers := []
          Depth := resp.Depth
          Source := "form" }
      else if formMethod item = "POST" then
        { Method := formMethod item
          URL := resp.AbsoluteURL href
          Body := formBody env item
          Headers := [("Content-Type", formContentType env item)]
          Depth := resp.Depth
          Source := "form" }
      else
        { Method := formMethod item
          URL := resp.AbsoluteURL href
          Body := formBody env item
          Headers := []
          Depth := resp.Depth
          Source := "form" }] := by
    simp only [bodyFormTagParser, hforms, List.filter_cons, hha, if_true, List.filter_nil,
      List.filterMap_cons, formTagRequest_some env resp item href hact hres,
      List.filterMap_nil]
  refine ⟨?_, ?_, ?_, ?_⟩
  · intro resp' hnone
    have hf : resp'.Reader.formTags.filter (fun e => e.hasAttr "action") = [] := by
      rw [List.filter_eq_nil_iff]
      intro e he
      rw [Element.hasAttr, hnone e he]
      simp
    simp only [bodyFormTagParser, hf, List.filterMap_nil]
  · rw [hlist]
    rfl
  · intro req hreq
    rw [hlist, List.mem_singleton] at hreq
    subst hreq
    split
    · exact hbody
    · split
      · exact hbody
      · exact hbody
  · rw [hqv]
    rfl

/-- A plain (default-enctype) form with an `action` and zero inputs. -/
def c6wform : Element :=
  Element.mk [("action", "https://example.com/w")] [] ""

/-- A response whose document holds only `c6wform`. -/
def c6wresp : NavigationResponse :=
  { Depth := 1
    Options := { Options := { ScrapeJSResponses := false } }
    Body := ""
    RespHeader := []
    RespRequestURLPath := "/"
    Reader := { emptyDoc with formTags := [c6wform] }
    AbsoluteURL := fun s => s }

/-- Witness for C6: the amended statement instantiated at `c6wform`. -/
theorem c6_witness :
    (∀ resp' : NavigationResponse,
        (∀ e ∈ resp'.Reader.formTags, e.attr "action" = none) →
        bodyFormTagParser exEnv resp' = []) ∧
    (bodyFormTagParser exEnv c6wresp).length = 1 ∧
    (∀ req ∈ bodyFormTagParser exEnv c6wresp,
        req.Body = (if strStartsWith (formEncType c6wform) "multipart/" then
            "\r\n--" ++ exEnv.boundary ++ "--\r\n"
          else "")) ∧
    valuesEncode (formQueryValues exEnv c6wform) = "" :=
  c6_amended_no_action_and_empty_forms exEnv c6wresp c6wform "https://example.com/w"
    (by decide) (by decide) rfl rfl rfl

/-! ## C10 -/

/-- C10: for every GET-method form the parser emits for, the request URL is
the resolved action URL, a literal "?", and the urlencoded field set,
unconditionally — no check that the action URL already contains a query
string, and no check that the field set is non-empty. -/
theorem c10_get_appends_query_unconditionally (env : Env) (resp : NavigationResponse)
    (item : Element) (href : String)
    (hact : item.attr "action" = some href)
    (hres : resp.AbsoluteURL href ≠ "")
    (hm : formMethod item = "GET") :
    formTagRequest env resp item = some
      { Method := "GET"
        URL := resp.AbsoluteURL href ++ "?" ++ valuesEncode (formQueryValues env item)
        Body := formBody env item
        Headers := []
        Depth := resp.Depth
        Source := "form" } := by
  rw [formTagRequest_some env resp item href hact hres, hm]
  simp

/-- A GET form whose action already contains a query string, with zero
inputs. -/
def c10form : Element :=
  Element.mk [("action", "https://example.com/p?x=1")] [] ""

/-- A response whose document holds only `c10form`. -/
def c10resp : NavigationResponse :=
  { Depth := 1
    Options := { Options := { ScrapeJSResponses := false } }
    Body := ""
    RespHeader := []
    RespRequestURLPath := "/"
    Reader := { emptyDoc with formTags := [c10form] }
    AbsoluteURL := fun s => s }

/-- Witness for C10: instantiated at an action URL that already contains
`?x=1` and a form with no fields, the emitted URL contains two "?"
characters and ends in "?". -/
theorem c10_witness :
    formTagRequest exEnv c10resp c10form = some
      { Method := "GET"
        URL := c10resp.AbsoluteURL "https://example.com/p?x=1" ++ "?" ++
          valuesEncode (formQueryValues exEnv c10form)
        Body := formBody exEnv c10form
        Headers := []
        Depth := c10resp.Depth
        Source := "form" } ∧
    ((c10resp.AbsoluteURL "https://example.com/p?x=1" ++ "?" ++
        valuesEncode (formQueryValues exEnv c10form)).data.filter (fun c => c = '?')).length = 2 ∧
    strEndsWith (c10resp.AbsoluteURL "https://example.com/p?x=1" ++ "?" ++
        valuesEncode (formQueryValues exEnv c10form)) "?" = true :=
  ⟨c10_get_appends_query_unconditionally exEnv c10resp c10form "https://example.com/p?x=1"
      (by decide) (by decide) (by decide),
    by decide, by decide⟩
